import Mathlib

/-!
Shallow embedding of the chain-offer state-and-layout core
(`src/lib/hooks/useChainOfferState.ts`, `src/lib/hooks/ChainOfferContext.tsx`,
`src/lib/utils/utils.ts`, `src/lib/components/renderers/ButtonRenderer.tsx`,
`src/lib/components/renderers/OfferRenderer.tsx`).

Modelling conventions:
- JavaScript numbers are embedded as exact rationals.
- A `Record<string, T>` object is embedded as an association list
  `List (String × T)`; the object-spread update `\x7b ...prev, [k]: v \x7d`
  keeps the position of an existing key and appends a fresh key at the end,
  which `setKey` reproduces.
- The truthiness test `offerStates[key] || fallback` on a state string is
  `undefined`-or-fallback, because all state names are nonempty strings;
  it is embedded as `Option.getD`.
- The `setTimeout` feedback timer of `handleButtonClick` is embedded as an
  explicit pending action (`ClickOutcome.pendingRevertKey`) fired by
  `runFeedbackTimer` with the mounted flag of the owning component.
-/

namespace ChainOffer

/-- Offer lifecycle states, from `src/lib/types.ts`. -/
inductive OfferState
  | Locked
  | Unlocked
  | Claimed
  deriving DecidableEq, Repr, BEq

/-- Header states, from `src/lib/types.ts`. -/
inductive HeaderState
  | active
  | success
  | fail
  deriving DecidableEq, Repr, BEq

/-- Button interaction states, from `src/lib/types.ts`. -/
inductive ButtonState
  | default
  | disabled
  | hover
  | active
  | claimed
  deriving DecidableEq, Repr, BEq

/-- Lookup of a key in an object embedded as an association list; returns the
value stored at the first matching key, like property access on a JS object
whose keys are unique. -/
def lookupKey {α : Type} (m : List (String × α)) (k : String) : Option α :=
  match m with
  | [] => none
  | (k1, v) :: rest => if k1 = k then some v else lookupKey rest k

/-- Object-spread update `\x7b ...m, [k]: v \x7d`: replaces the value at an
existing key in place, appends the pair at the end when the key is new. -/
def setKey {α : Type} (m : List (String × α)) (k : String) (v : α) : List (String × α) :=
  match m with
  | [] => [(k, v)]
  | (k1, v1) :: rest => if k1 = k then (k, v) :: rest else (k1, v1) :: setKey rest k v

/-- The key set of an embedded object, in insertion order. -/
def keys {α : Type} (m : List (String × α)) : List String :=
  m.map Prod.fst

/-- `OFFER_STATE_ORDER` from `useChainOfferState.ts`. -/
def OFFER_STATE_ORDER : List OfferState :=
  [OfferState.Locked, OfferState.Unlocked, OfferState.Claimed]

/-- `HEADER_STATE_ORDER` from `useChainOfferState.ts`. -/
def HEADER_STATE_ORDER : List HeaderState :=
  [HeaderState.active, HeaderState.success, HeaderState.fail]

/-- Successor in the offer cycle:
`OFFER_STATE_ORDER[(OFFER_STATE_ORDER.indexOf s + 1) % OFFER_STATE_ORDER.length]`.
Both the hook and the context provider compute the next offer state this way. -/
def cycleNextOffer (s : OfferState) : OfferState :=
  OFFER_STATE_ORDER.getD ((OFFER_STATE_ORDER.indexOf s + 1) % OFFER_STATE_ORDER.length)
    OfferState.Locked

/-- `initializeOfferStates` from `useChainOfferState.ts`: every offer with a
truthy `offerKey` (a nonempty string) starts `Locked`. -/
def initializeOfferStates (offerKeys : List String) : List (String × OfferState) :=
  offerKeys.foldl (fun acc k => if k = "" then acc else setKey acc k OfferState.Locked) []

/-- `initializeButtonStates` from `useChainOfferState.ts`: every button with a
truthy `offerKey` starts in the `default` state. -/
def initializeButtonStates (buttonKeys : List String) : List (String × ButtonState) :=
  buttonKeys.foldl (fun acc k => if k = "" then acc else setKey acc k ButtonState.default) []

/-- `getOfferState` from `useChainOfferState.ts`:
`componentState.offerStates[offerKey] || 'Locked'`. -/
def getOfferState (m : List (String × OfferState)) (k : String) : OfferState :=
  (lookupKey m k).getD OfferState.Locked

/-- `setOfferState` from `useChainOfferState.ts`: spread update of the offer map. -/
def setOfferState (m : List (String × OfferState)) (k : String) (s : OfferState) :
    List (String × OfferState) :=
  setKey m k s

/-- `cycleOfferState` from `useChainOfferState.ts`: reads the current state,
advances it one step along `OFFER_STATE_ORDER`, stores the successor. -/
def cycleOfferState (m : List (String × OfferState)) (k : String) :
    List (String × OfferState) :=
  setOfferState m k (cycleNextOffer (getOfferState m k))

/-- `getButtonState` from `useChainOfferState.ts`:
`componentState.buttonStates[offerKey] || 'default'`. -/
def getButtonState (m : List (String × ButtonState)) (k : String) : ButtonState :=
  (lookupKey m k).getD ButtonState.default

/-- `setButtonState` from `useChainOfferState.ts`: spread update of the button map. -/
def setButtonState (m : List (String × ButtonState)) (k : String) (s : ButtonState) :
    List (String × ButtonState) :=
  setKey m k s

/-- `handleButtonMouseEnter` from `useChainOfferState.ts`: only a button whose
current state is `default` moves to `hover`. -/
def handleButtonMouseEnter (m : List (String × ButtonState)) (k : String) :
    List (String × ButtonState) :=
  if getButtonState m k = ButtonState.default then setButtonState m k ButtonState.hover else m

/-- `handleButtonMouseLeave` from `useChainOfferState.ts`: only a button whose
current state is `hover` moves back to `default`. -/
def handleButtonMouseLeave (m : List (String × ButtonState)) (k : String) :
    List (String × ButtonState) :=
  if getButtonState m k = ButtonState.hover then setButtonState m k ButtonState.default else m

/-- The fixed visual-feedback delay of `handleButtonClick`, in milliseconds. -/
def CLICK_FEEDBACK_DELAY_MS : Nat := 150

/-- Observable outcome of one `handleButtonClick` call: the synchronously
updated button map, how many times the external callback ran during the call,
and the key whose deferred revert the `setTimeout` scheduled. -/
structure ClickOutcome where
  buttonStates : List (String × ButtonState)
  externalCallbackCalls : Nat
  pendingRevertKey : String
  deriving DecidableEq, Repr

/-- `handleButtonClick` from `useChainOfferState.ts`: sets the button to
`active` with no guard on its current state, schedules the revert timer, and
invokes the provided external callback once. -/
def handleButtonClick (m : List (String × ButtonState)) (k : String) : ClickOutcome :=
  { buttonStates := setButtonState m k ButtonState.active
    externalCallbackCalls := 1
    pendingRevertKey := k }

/-- The deferred body of the `setTimeout` in `handleButtonClick`: the write
back to `default` happens only when `isMounted.current` is still true. -/
def runFeedbackTimer (mounted : Bool) (o : ClickOutcome) : List (String × ButtonState) :=
  if mounted then setButtonState o.buttonStates o.pendingRevertKey ButtonState.default
  else o.buttonStates

/-- Provider state from `src/lib/types.ts` (`AppState`), as held by
`ChainOfferProvider` in `ChainOfferContext.tsx`. -/
structure AppState where
  offerStates : List (String × OfferState)
  headerState : HeaderState
  buttonStates : List (String × ButtonState)
  isAnimating : Bool
  deriving DecidableEq, Repr

namespace Ctx

/-- `setOfferState` of `ChainOfferContext.tsx`. -/
def setOfferState (st : AppState) (k : String) (s : OfferState) : AppState :=
  { st with offerStates := setKey st.offerStates k s }

/-- `cycleOfferState` of `ChainOfferContext.tsx`: advances the offer state one
step and, in the same update, drives the correlated button state
(`disabled` by default, `default` when the next offer state is `Unlocked`,
`claimed` when it is `Claimed`). -/
def cycleOfferState (st : AppState) (k : String) : AppState :=
  let currentState := (lookupKey st.offerStates k).getD OfferState.Locked
  let nextState := cycleNextOffer currentState
  let nextButtonState : ButtonState :=
    if nextState = OfferState.Unlocked then ButtonState.default
    else if nextState = OfferState.Claimed then ButtonState.claimed
    else ButtonState.disabled
  { st with
    offerStates := setKey st.offerStates k nextState
    buttonStates := setKey st.buttonStates k nextButtonState }

/-- `setButtonState` of `ChainOfferContext.tsx`. -/
def setButtonState (st : AppState) (k : String) (s : ButtonState) : AppState :=
  { st with buttonStates := setKey st.buttonStates k s }

/-- `handleButtonMouseEnter` of `ChainOfferContext.tsx`:
`prev.buttonStates[offerKey] || 'default'`, then `default → hover` only. -/
def handleButtonMouseEnter (st : AppState) (k : String) : AppState :=
  let currentBtnState := (lookupKey st.buttonStates k).getD ButtonState.default
  if currentBtnState = ButtonState.default then
    { st with buttonStates := setKey st.buttonStates k ButtonState.hover }
  else st

/-- `handleButtonMouseLeave` of `ChainOfferContext.tsx`: reads
`prev.buttonStates[offerKey]` with no fallback; both `hover` and `active`
return to `default`, every other lookup result leaves the state untouched. -/
def handleButtonMouseLeave (st : AppState) (k : String) : AppState :=
  let currentBtnState := lookupKey st.buttonStates k
  if currentBtnState = some ButtonState.hover ∨ currentBtnState = some ButtonState.active then
    { st with buttonStates := setKey st.buttonStates k ButtonState.default }
  else st

end Ctx

/-- A width/height pair, from the `frameSize`/target-size shape in
`src/lib/utils/utils.ts`. -/
structure Size where
  width : ℚ
  height : ℚ
  deriving DecidableEq, Repr

/-- Result record of `calculateChainOfferScale`. -/
structure ScaleCalculation where
  scale : ℚ
  scaledWidth : ℚ
  scaledHeight : ℚ
  deriving DecidableEq, Repr

/-- `calculateChainOfferScale` from `src/lib/utils/utils.ts`: contain-fit
uniform scale, `min` of the per-axis ratios. -/
def calculateChainOfferScale (originalSize targetSize : Size) : ScaleCalculation :=
  let scaleX := targetSize.width / originalSize.width
  let scaleY := targetSize.height / originalSize.height
  let scale := min scaleX scaleY
  { scale := scale
    scaledWidth := originalSize.width * scale
    scaledHeight := originalSize.height * scale }

/-- Gradient kinds from `src/lib/types.ts`. -/
inductive GradientType
  | linear
  | radial
  | angular
  deriving DecidableEq, Repr

/-- One gradient stop, from `src/lib/types.ts`. -/
structure GradientStop where
  color : String
  position : ℚ
  deriving DecidableEq, Repr

/-- Gradient record from `src/lib/types.ts`; `rotation` is optional. -/
structure Gradient where
  type : GradientType
  stops : List GradientStop
  rotation : Option ℚ
  deriving DecidableEq, Repr

/-- Fill kinds from `src/lib/types.ts`. -/
inductive FillType
  | solid
  | gradient
  deriving DecidableEq, Repr

/-- Fill record from `src/lib/types.ts`; `color` and `gradient` are optional. -/
structure Fill where
  type : FillType
  color : Option String
  gradient : Option Gradient
  deriving DecidableEq, Repr

/-- Embedding of JS `Number.prototype.toFixed(1)` on an exact rational:
the value rounded to tenths, printed with one digit after the point. -/
def toFixed1 (x : ℚ) : String :=
  let t : Int := round (x * 10)
  (if t < 0 then "-" else "") ++ toString (t.natAbs / 10) ++ "." ++ toString (t.natAbs % 10)

/-- Embedding of JS template interpolation of a number: an integer renders
with no point; the non-integer rendering is abstracted as `num/den`.
Every quantity interpolated by the modelled code paths keeps its exact value,
so this only fixes a display convention. -/
def formatRatNum (x : ℚ) : String :=
  if x.den = 1 then toString x.num else toString x.num ++ "/" ++ toString x.den

/-- One stop of the `linear-gradient` string:
`stop.color ++ space ++ (stop.position * 100).toFixed(1) ++ percent`. -/
def stopToCSS (stop : GradientStop) : String :=
  stop.color ++ " " ++ toFixed1 (stop.position * 100) ++ "%"

/-- The comma-join over the stop list, in given order. -/
def joinStops (stops : List GradientStop) : String :=
  String.intercalate ", " (stops.map stopToCSS)

/-- `convertFillToCSS` from `src/lib/utils/utils.ts`. A solid fill yields its
color (falling back to `transparent` for a missing or empty color string); a
gradient fill with a present gradient record yields a `linear-gradient`
string for the `linear` kind with `rotation || 0` as the angle, and
`transparent` for every other kind; everything else yields `transparent`. -/
def convertFillToCSS (fill : Fill) : String :=
  if fill.type = FillType.solid then
    match fill.color with
    | some c => if c = "" then "transparent" else c
    | none => "transparent"
  else
    match fill.gradient with
    | some g =>
      let stops := joinStops g.stops
      match g.type with
      | GradientType.linear =>
        let angle := g.rotation.getD 0
        "linear-gradient(" ++ formatRatNum angle ++ "deg, " ++ stops ++ ")"
      | _ => "transparent"
    | none => "transparent"

/-- One drop shadow, from `src/lib/types.ts`. -/
structure DropShadow where
  x : ℚ
  y : ℚ
  blur : ℚ
  spread : ℚ
  color : String
  deriving DecidableEq, Repr

/-- `convertShadowsToCSS` from `src/lib/utils/utils.ts`: each shadow scaled
uniformly on its four numeric fields, comma-joined in given order; an empty
list yields `none`. -/
def convertShadowsToCSS (shadows : List DropShadow) (scale : ℚ) : String :=
  if shadows.length = 0 then "none"
  else
    String.intercalate ", " (shadows.map fun s =>
      formatRatNum (s.x * scale) ++ "px " ++ formatRatNum (s.y * scale) ++ "px " ++
        formatRatNum (s.blur * scale) ++ "px " ++ formatRatNum (s.spread * scale) ++ "px " ++
        s.color)

/-- `ImageBounds` from `src/lib/types.ts`: center coordinates, optional
`width`/`height` with `w`/`h` synonyms, optional rotation. -/
structure ImageBounds where
  x : ℚ
  y : ℚ
  width : Option ℚ
  height : Option ℚ
  w : Option ℚ
  h : Option ℚ
  rotation : Option ℚ
  deriving DecidableEq, Repr

/-- `Offer` from `src/lib/types.ts`, restricted to the fields the renderer
reads; at runtime a state entry can be absent, so `stateBounds` is a partial
map over `OfferState`. -/
structure Offer where
  offerKey : String
  stateBounds : OfferState → Option ImageBounds

/-- The visual output of `OfferRenderer` for one offer: the CSS custom
properties it emits (center-anchored position, scaled dimensions, the
optional rotation of the transform) plus the data attributes. -/
structure RenderedOffer where
  offerKey : String
  state : OfferState
  left : ℚ
  top : ℚ
  width : ℚ
  height : ℚ
  rotation : Option ℚ
  deriving DecidableEq, Repr

/-- `OfferRenderer` from `OfferRenderer.tsx`: null when the `offerKey` is
falsy (empty string) and null when `stateBounds` has no entry for the current
state; otherwise the element positioned by the current-state bounds. The
transform only includes a `rotate` term when `bounds.rotation` is truthy
(present and nonzero). -/
def OfferRenderer (offer : Offer) (currentState : OfferState) (scale : ℚ) :
    Option RenderedOffer :=
  if offer.offerKey = "" then none
  else
    match offer.stateBounds currentState with
    | none => none
    | some bounds =>
      let width := ((bounds.width).orElse fun _ => bounds.w).getD 0 * scale
      let height := ((bounds.height).orElse fun _ => bounds.h).getD 0 * scale
      some
        { offerKey := offer.offerKey
          state := currentState
          left := bounds.x * scale
          top := bounds.y * scale
          width := width
          height := height
          rotation :=
            match bounds.rotation with
            | some r => if r = 0 then none else some r
            | none => none }

/-- The `layoutSizing` record of a button frame. -/
structure LayoutSizing where
  horizontal : String
  vertical : String
  deriving DecidableEq, Repr

/-- An optional explicit dimensions record of a button frame. -/
structure Dimensions where
  width : ℚ
  height : ℚ
  deriving DecidableEq, Repr

/-- A stroke record from `src/lib/types.ts`. -/
structure Stroke where
  width : ℚ
  color : String
  deriving DecidableEq, Repr

/-- The `frame` part of a `ButtonStateStyle`, from `src/lib/types.ts`. -/
structure ButtonFrame where
  borderRadius : ℚ
  backgroundFill : Fill
  isAutolayout : Bool
  layoutSizing : Option LayoutSizing
  dimensions : Option Dimensions
  paddingVertical : ℚ
  paddingHorizontal : ℚ
  dropShadows : List DropShadow
  stroke : Option Stroke
  deriving DecidableEq, Repr

/-- One per-state style entry of a button, from `src/lib/types.ts`. -/
structure ButtonStateStyle where
  frame : ButtonFrame
  textFontSize : ℚ
  textColor : String
  deriving DecidableEq, Repr

/-- `ButtonComponent` from `src/lib/types.ts`, restricted to what the
renderer reads; a per-state style entry can be absent at runtime. -/
structure ButtonComponent where
  offerKey : String
  positionX : ℚ
  positionY : ℚ
  stateStyles : ButtonState → Option ButtonStateStyle

/-- A per-axis size CSS variable of the button: absent (HUG, or autolayout
without `layoutSizing`), 100% of the container (FILL), or a scaled pixel
value (FIXED or non-autolayout). -/
inductive SizeVar
  | unset
  | fillContainer
  | px (v : ℚ)
  deriving DecidableEq, Repr

/-- `getButtonText` from `ButtonRenderer.tsx`. -/
def getButtonText (state : ButtonState) : String :=
  match state with
  | ButtonState.default => "CLAIM"
  | ButtonState.hover => "CLAIM"
  | ButtonState.active => "CLAIMING"
  | ButtonState.disabled => "LOCKED"
  | ButtonState.claimed => "CLAIMED"

/-- The visual output of `ButtonRenderer` for one button: the CSS custom
properties, the per-axis size variables, the disabled DOM attribute and the
label text. -/
structure RenderedButton where
  offerKey : String
  state : ButtonState
  left : ℚ
  top : ℚ
  background : String
  borderRadiusPx : ℚ
  boxShadow : String
  border : String
  fontSizePx : ℚ
  textColor : String
  paddingPx : Option (ℚ × ℚ)
  widthVar : SizeVar
  heightVar : SizeVar
  disabled : Bool
  label : String
  deriving DecidableEq, Repr

/-- The horizontal sizing branch of `ButtonRenderer.tsx`: HUG sets no
variable, FILL fills the container, anything else is FIXED with the explicit
width defaulting to 160; outside autolayout the FIXED branch always applies;
autolayout without a `layoutSizing` record sets no variable. -/
def buttonWidthVar (f : ButtonFrame) (scale : ℚ) : SizeVar :=
  if f.isAutolayout then
    match f.layoutSizing with
    | some ls =>
      if ls.horizontal = "HUG" then SizeVar.unset
      else if ls.horizontal = "FILL" then SizeVar.fillContainer
      else SizeVar.px (((f.dimensions.map Dimensions.width).getD 160) * scale)
    | none => SizeVar.unset
  else SizeVar.px (((f.dimensions.map Dimensions.width).getD 160) * scale)

/-- The vertical sizing branch of `ButtonRenderer.tsx`, with default height 60. -/
def buttonHeightVar (f : ButtonFrame) (scale : ℚ) : SizeVar :=
  if f.isAutolayout then
    match f.layoutSizing with
    | some ls =>
      if ls.vertical = "HUG" then SizeVar.unset
      else if ls.vertical = "FILL" then SizeVar.fillContainer
      else SizeVar.px (((f.dimensions.map Dimensions.height).getD 60) * scale)
    | none => SizeVar.unset
  else SizeVar.px (((f.dimensions.map Dimensions.height).getD 60) * scale)

/-- `ButtonRenderer` from `ButtonRenderer.tsx`: null when `stateStyles` has
no entry for the current state; otherwise the button element with its CSS
variables built from exactly that entry, and the DOM `disabled` attribute set
iff the current state is `disabled`. -/
def ButtonRenderer (button : ButtonComponent) (currentState : ButtonState) (scale : ℚ) :
    Option RenderedButton :=
  match button.stateStyles currentState with
  | none => none
  | some stateStyle =>
    let f := stateStyle.frame
    some
      { offerKey := button.offerKey
        state := currentState
        left := button.positionX * scale
        top := button.positionY * scale
        background := convertFillToCSS f.backgroundFill
        borderRadiusPx := f.borderRadius * scale
        boxShadow := convertShadowsToCSS f.dropShadows scale
        border :=
          match f.stroke with
          | some s => formatRatNum (s.width * scale) ++ "px solid " ++ s.color
          | none => "none"
        fontSizePx := stateStyle.textFontSize * scale
        textColor := stateStyle.textColor
        paddingPx :=
          if f.isAutolayout then some (f.paddingVertical * scale, f.paddingHorizontal * scale)
          else none
        widthVar := buttonWidthVar f scale
        heightVar := buttonHeightVar f scale
        disabled := currentState = ButtonState.disabled
        label := getButtonText currentState }

/-- Updating a key makes it visible with the written value. -/
theorem lookupKey_setKey_self {α : Type} (m : List (String × α)) (k : String) (v : α) :
    lookupKey (setKey m k v) k = some v := by
  induction m with
  | nil => simp [setKey, lookupKey]
  | cons p rest ih =>
    obtain ⟨k1, v1⟩ := p
    by_cases hk : k1 = k
    · simp [setKey, lookupKey, hk]
    · simp [setKey, lookupKey, hk, ih]

/-- Updating one key leaves every other key unchanged. -/
theorem lookupKey_setKey_ne {α : Type} (m : List (String × α)) (k k2 : String) (v : α)
    (h : k2 ≠ k) : lookupKey (setKey m k v) k2 = lookupKey m k2 := by
  induction m with
  | nil =>
    simp only [setKey, lookupKey]
    rw [if_neg (fun hk => h hk.symm)]
  | cons p rest ih =>
    obtain ⟨k1, v1⟩ := p
    by_cases hk : k1 = k
    · subst hk
      have hne : ¬ k1 = k2 := fun hk2 => h hk2.symm
      simp [setKey, lookupKey, hne]
    · by_cases hk2 : k1 = k2
      · subst hk2
        simp [setKey, lookupKey, hk]
      · simp [setKey, lookupKey, hk, hk2, ih]

/-- Updating a key that is absent appends it: the key set grows by that key. -/
theorem keys_setKey_of_none {α : Type} (m : List (String × α)) (k : String) (v : α)
    (h : lookupKey m k = none) : keys (setKey m k v) = keys m ++ [k] := by
  induction m with
  | nil => simp [setKey, keys]
  | cons p rest ih =>
    obtain ⟨k1, v1⟩ := p
    simp only [lookupKey] at h
    by_cases hk : k1 = k
    · simp [hk] at h
    · rw [if_neg hk] at h
      have ih2 := ih h
      simp only [keys] at ih2 ⊢
      simp [setKey, hk, ih2]

/-- Updating a key that is present keeps the key set unchanged. -/
theorem keys_setKey_of_some {α : Type} (m : List (String × α)) (k : String) (v : α)
    (h : (lookupKey m k).isSome = true) : keys (setKey m k v) = keys m := by
  induction m with
  | nil => simp [lookupKey] at h
  | cons p rest ih =>
    obtain ⟨k1, v1⟩ := p
    simp only [lookupKey] at h
    by_cases hk : k1 = k
    · simp [setKey, keys, hk]
    · rw [if_neg hk] at h
      have ih2 := ih h
      simp only [keys] at ih2 ⊢
      simp [setKey, hk, ih2]

/-- Reading back the key just cycled gives the successor of its prior state. -/
theorem getOfferState_cycle_self (m : List (String × OfferState)) (k : String) :
    getOfferState (cycleOfferState m k) k = cycleNextOffer (getOfferState m k) := by
  simp [cycleOfferState, setOfferState, getOfferState, lookupKey_setKey_self]

/-- Cycling an offer in the context provider stores the successor state under
that key. -/
theorem ctx_cycle_offer_lookup (st : AppState) (k : String) :
    lookupKey (Ctx.cycleOfferState st k).offerStates k =
      some (cycleNextOffer ((lookupKey st.offerStates k).getD OfferState.Locked)) := by
  simp [Ctx.cycleOfferState, lookupKey_setKey_self]

/-- C1: for every pair of sizes with positive width and height,
`calculateChainOfferScale(original, target)` returns
`scale = min(target.width/original.width, target.height/original.height)`,
`scaledWidth = original.width * scale`, `scaledHeight = original.height * scale`,
with `scaledWidth ≤ target.width`, `scaledHeight ≤ target.height`, and at
least one of the two exactly equal to its target dimension. -/
theorem calculateChainOfferScale_contain_fit
    (o t : Size) (how : 0 < o.width) (hoh : 0 < o.height)
    (_htw : 0 < t.width) (_hth : 0 < t.height) :
    (calculateChainOfferScale o t).scale = min (t.width / o.width) (t.height / o.height) ∧
    (calculateChainOfferScale o t).scaledWidth = o.width * (calculateChainOfferScale o t).scale ∧
    (calculateChainOfferScale o t).scaledHeight = o.height * (calculateChainOfferScale o t).scale ∧
    (calculateChainOfferScale o t).scaledWidth ≤ t.width ∧
    (calculateChainOfferScale o t).scaledHeight ≤ t.height ∧
    ((calculateChainOfferScale o t).scaledWidth = t.width ∨
      (calculateChainOfferScale o t).scaledHeight = t.height) := by
  have hw : o.width ≠ 0 := ne_of_gt how
  have hh : o.height ≠ 0 := ne_of_gt hoh
  refine ⟨rfl, rfl, rfl, ?_, ?_, ?_⟩
  · show o.width * min (t.width / o.width) (t.height / o.height) ≤ t.width
    calc o.width * min (t.width / o.width) (t.height / o.height)
        ≤ o.width * (t.width / o.width) :=
          mul_le_mul_of_nonneg_left (min_le_left _ _) (le_of_lt how)
      _ = t.width := by field_simp
  · show o.height * min (t.width / o.width) (t.height / o.height) ≤ t.height
    calc o.height * min (t.width / o.width) (t.height / o.height)
        ≤ o.height * (t.height / o.height) :=
          mul_le_mul_of_nonneg_left (min_le_right _ _) (le_of_lt hoh)
      _ = t.height := by field_simp
  · rcases le_total (t.width / o.width) (t.height / o.height) with hmn | hmn
    · left
      show o.width * min (t.width / o.width) (t.height / o.height) = t.width
      rw [min_eq_left hmn]
      field_simp
    · right
      show o.height * min (t.width / o.width) (t.height / o.height) = t.height
      rw [min_eq_right hmn]
      field_simp

/-- C1 witness: the spec example, original 800 by 600 into target 400 by 400,
yields scale one half, scaled size 400 by 300, and the contain-fit bounds. -/
theorem calculateChainOfferScale_contain_fit_witness :
    ((0:ℚ) < 800 ∧ (0:ℚ) < 600 ∧ (0:ℚ) < 400) ∧
    calculateChainOfferScale ⟨800, 600⟩ ⟨400, 400⟩ =
      { scale := 1/2, scaledWidth := 400, scaledHeight := 300 } ∧
    ((calculateChainOfferScale ⟨800, 600⟩ ⟨400, 400⟩).scaledWidth ≤ 400 ∧
      ((calculateChainOfferScale ⟨800, 600⟩ ⟨400, 400⟩).scaledWidth = 400 ∨
        (calculateChainOfferScale ⟨800, 600⟩ ⟨400, 400⟩).scaledHeight = 400)) :=
  ⟨⟨by norm_num, by norm_num, by norm_num⟩,
    by unfold calculateChainOfferScale; norm_num [min_def],
    (calculateChainOfferScale_contain_fit ⟨800, 600⟩ ⟨400, 400⟩
        (by norm_num) (by norm_num) (by norm_num) (by norm_num)).2.2.2.1,
    ((calculateChainOfferScale_contain_fit ⟨800, 600⟩ ⟨400, 400⟩
        (by norm_num) (by norm_num) (by norm_num) (by norm_num)).2.2.2.2.2)⟩

/-- C2: for every offerKey present in the initialized offer-state map,
three applications of `cycleOfferState` return that offer to its starting
state, and a single application maps Locked to Unlocked, Unlocked to
Claimed, Claimed to Locked; the same holds for the context provider. -/
theorem cycleOfferState_period_three
    (m : List (String × OfferState)) (st : AppState) (k : String)
    (_hm : (lookupKey m k).isSome = true)
    (hc : (lookupKey st.offerStates k).isSome = true) :
    getOfferState (cycleOfferState m k) k = cycleNextOffer (getOfferState m k) ∧
    getOfferState (cycleOfferState (cycleOfferState (cycleOfferState m k) k) k) k =
      getOfferState m k ∧
    cycleNextOffer OfferState.Locked = OfferState.Unlocked ∧
    cycleNextOffer OfferState.Unlocked = OfferState.Claimed ∧
    cycleNextOffer OfferState.Claimed = OfferState.Locked ∧
    lookupKey
        (Ctx.cycleOfferState (Ctx.cycleOfferState (Ctx.cycleOfferState st k) k) k).offerStates
        k =
      lookupKey st.offerStates k := by
  obtain ⟨s0, hs0⟩ := Option.isSome_iff_exists.mp hc
  refine ⟨getOfferState_cycle_self m k, ?_, by decide, by decide, by decide, ?_⟩
  · rw [getOfferState_cycle_self, getOfferState_cycle_self, getOfferState_cycle_self]
    generalize getOfferState m k = s1
    cases s1 <;> decide
  · rw [ctx_cycle_offer_lookup, ctx_cycle_offer_lookup, ctx_cycle_offer_lookup, hs0]
    simp only [Option.getD_some]
    cases s0 <;> decide

/-- C2 witness: with one initialized offer, one cycle gives Unlocked and three
cycles return to Locked. -/
theorem cycleOfferState_period_three_witness :
    ((lookupKey (initializeOfferStates ["offer1"]) "offer1").isSome = true ∧
      (lookupKey
          (AppState.mk (initializeOfferStates ["offer1"]) HeaderState.active [] false).offerStates
          "offer1").isSome = true) ∧
    getOfferState
        (cycleOfferState
          (cycleOfferState (cycleOfferState (initializeOfferStates ["offer1"]) "offer1") "offer1")
          "offer1")
        "offer1" =
      getOfferState (initializeOfferStates ["offer1"]) "offer1" :=
  ⟨⟨by decide, by decide⟩,
    (cycleOfferState_period_three (initializeOfferStates ["offer1"])
        (AppState.mk (initializeOfferStates ["offer1"]) HeaderState.active [] false) "offer1"
        (by decide) (by decide)).2.1⟩

/-- C3 counterexample: cycling an offerKey that is not in the initialized
offer-state map adds a new entry, so the key set after the call differs from
the key set produced at initialization. -/
theorem unknownKey_claim_counterexample :
    ¬ (keys (cycleOfferState (initializeOfferStates ["offer1"]) "ghost") =
        keys (initializeOfferStates ["offer1"])) := by
  decide

/-- C3 amended: invoking `setOfferState`, `cycleOfferState` or
`setButtonState` with an offerKey absent from the state map silently creates
a new entry at the end of the map (the key set becomes the initialized keys
plus the given key); `cycleOfferState` treats the missing state as Locked and
stores Unlocked; entries under every other key are unchanged. -/
theorem unknownKey_adds_entry
    (om : List (String × OfferState)) (bm : List (String × ButtonState)) (k : String)
    (ho : lookupKey om k = none) (hb : lookupKey bm k = none) :
    (∀ s : OfferState,
        keys (setOfferState om k s) = keys om ++ [k] ∧
        lookupKey (setOfferState om k s) k = some s) ∧
    keys (cycleOfferState om k) = keys om ++ [k] ∧
    lookupKey (cycleOfferState om k) k = some OfferState.Unlocked ∧
    (∀ s : ButtonState,
        keys (setButtonState bm k s) = keys bm ++ [k] ∧
        lookupKey (setButtonState bm k s) k = some s) ∧
    (∀ (k2 : String) (s : OfferState), k2 ≠ k →
        lookupKey (setOfferState om k s) k2 = lookupKey om k2) := by
  have hget : getOfferState om k = OfferState.Locked := by
    simp [getOfferState, ho]
  refine ⟨fun s => ⟨keys_setKey_of_none om k s ho, lookupKey_setKey_self om k s⟩, ?_, ?_,
    fun s => ⟨keys_setKey_of_none bm k s hb, lookupKey_setKey_self bm k s⟩,
    fun k2 s h2 => lookupKey_setKey_ne om k k2 s h2⟩
  · unfold cycleOfferState setOfferState
    exact keys_setKey_of_none om k _ ho
  · unfold cycleOfferState setOfferState
    rw [lookupKey_setKey_self, hget]
    decide

/-- C3 amended witness: a map initialized for offer1 gains a ghost entry with
state Unlocked when the ghost key is cycled. -/
theorem unknownKey_adds_entry_witness :
    (lookupKey (initializeOfferStates ["offer1"]) "ghost" = none ∧
      lookupKey (initializeButtonStates ["offer1"]) "ghost" = none) ∧
    keys (cycleOfferState (initializeOfferStates ["offer1"]) "ghost") =
      keys (initializeOfferStates ["offer1"]) ++ ["ghost"] ∧
    lookupKey (cycleOfferState (initializeOfferStates ["offer1"]) "ghost") "ghost" =
      some OfferState.Unlocked :=
  ⟨⟨by decide, by decide⟩,
    (unknownKey_adds_entry (initializeOfferStates ["offer1"]) (initializeButtonStates ["offer1"])
        "ghost" (by decide) (by decide)).2.1,
    (unknownKey_adds_entry (initializeOfferStates ["offer1"]) (initializeButtonStates ["offer1"])
        "ghost" (by decide) (by decide)).2.2.1⟩

/-- C4 counterexample: in the hook implementation (`useChainOfferState`), a
button whose state is `active` (reached by clicking an initialized button) is
left in `active` by `handleButtonMouseLeave`, not mapped to `default`. -/
theorem mouseLeave_active_counterexample :
    getButtonState
        (handleButtonMouseLeave
          (handleButtonClick (initializeButtonStates ["offer1"]) "offer1").buttonStates
          "offer1")
        "offer1" = ButtonState.active ∧
    ButtonState.active ≠ ButtonState.default := by
  decide

/-- C4 amended: mouse-leave behavior differs between the two parallel
implementations. In the context provider (`ChainOfferContext.tsx`),
`handleButtonMouseLeave` maps a button in `hover` or `active` to `default`
and leaves every other state unchanged. In the hook
(`useChainOfferState.ts`), it maps only `hover` to `default` and leaves every
other state, including `active`, unchanged. -/
theorem mouseLeave_hover_vs_active
    (m : List (String × ButtonState)) (st : AppState) (k : String) (s : ButtonState)
    (hm : lookupKey m k = some s) (hc : lookupKey st.buttonStates k = some s) :
    (s = ButtonState.hover →
        getButtonState (handleButtonMouseLeave m k) k = ButtonState.default) ∧
    (s ≠ ButtonState.hover → handleButtonMouseLeave m k = m) ∧
    ((s = ButtonState.hover ∨ s = ButtonState.active) →
        lookupKey (Ctx.handleButtonMouseLeave st k).buttonStates k = some ButtonState.default) ∧
    (s ≠ ButtonState.hover → s ≠ ButtonState.active → Ctx.handleButtonMouseLeave st k = st) := by
  have hget : getButtonState m k = s := by simp [getButtonState, hm]
  refine ⟨?_, ?_, ?_, ?_⟩
  · intro hs
    subst hs
    simp [handleButtonMouseLeave, getButtonState, hm, setButtonState, lookupKey_setKey_self]
  · intro hs
    simp [handleButtonMouseLeave, hget, hs]
  · intro hs
    have hcond : lookupKey st.buttonStates k = some ButtonState.hover ∨
        lookupKey st.buttonStates k = some ButtonState.active := by
      rcases hs with hs | hs <;> rw [hc, hs]
      · exact Or.inl rfl
      · exact Or.inr rfl
    simp [Ctx.handleButtonMouseLeave, hcond, lookupKey_setKey_self]
  · intro hs1 hs2
    have hcond : ¬ (lookupKey st.buttonStates k = some ButtonState.hover ∨
        lookupKey st.buttonStates k = some ButtonState.active) := by
      rw [hc]
      rintro (h1 | h1)
      · exact hs1 (Option.some_injective _ h1)
      · exact hs2 (Option.some_injective _ h1)
    simp [Ctx.handleButtonMouseLeave, hcond]

/-- C4 amended witness: a hovered button returns to default on mouse-leave in
the hook, and an active button returns to default in the context provider. -/
theorem mouseLeave_hover_vs_active_witness :
    (lookupKey [("offer1", ButtonState.hover)] "offer1" = some ButtonState.hover ∧
      lookupKey [("offer1", ButtonState.active)] "offer1" = some ButtonState.active) ∧
    getButtonState (handleButtonMouseLeave [("offer1", ButtonState.hover)] "offer1") "offer1" =
      ButtonState.default ∧
    lookupKey
        (Ctx.handleButtonMouseLeave
          (AppState.mk [] HeaderState.active [("offer1", ButtonState.active)] false)
          "offer1").buttonStates
        "offer1" = some ButtonState.default :=
  ⟨⟨by decide, by decide⟩,
    (mouseLeave_hover_vs_active [("offer1", ButtonState.hover)]
        (AppState.mk [] HeaderState.active [("offer1", ButtonState.hover)] false) "offer1"
        ButtonState.hover (by decide) (by decide)).1 rfl,
    (mouseLeave_hover_vs_active [("offer1", ButtonState.active)]
        (AppState.mk [] HeaderState.active [("offer1", ButtonState.active)] false) "offer1"
        ButtonState.active (by decide) (by decide)).2.2.1 (Or.inr rfl)⟩

/-- C5: a click on a button in state `default` immediately sets `active`,
runs the external callback exactly once during the call, and the deferred
150 ms feedback write sets the state back to `default` exactly when the
owning component is still mounted; an unmount suppresses the write. -/
theorem handleButtonClick_transient
    (m : List (String × ButtonState)) (k : String)
    (_h : getButtonState m k = ButtonState.default) :
    getButtonState (handleButtonClick m k).buttonStates k = ButtonState.active ∧
    (handleButtonClick m k).externalCallbackCalls = 1 ∧
    getButtonState (runFeedbackTimer true (handleButtonClick m k)) k = ButtonState.default ∧
    runFeedbackTimer false (handleButtonClick m k) = (handleButtonClick m k).buttonStates ∧
    CLICK_FEEDBACK_DELAY_MS = 150 := by
  refine ⟨?_, rfl, ?_, rfl, rfl⟩
  · simp [handleButtonClick, getButtonState, setButtonState, lookupKey_setKey_self]
  · simp [runFeedbackTimer, handleButtonClick, getButtonState, setButtonState,
      lookupKey_setKey_self]

/-- C5 witness: clicking the initialized offer1 button shows `active` at
once, counts one callback call, and reverts to `default` when the timer
fires while mounted. -/
theorem handleButtonClick_transient_witness :
    getButtonState (initializeButtonStates ["offer1"]) "offer1" = ButtonState.default ∧
    getButtonState
        (handleButtonClick (initializeButtonStates ["offer1"]) "offer1").buttonStates
        "offer1" = ButtonState.active ∧
    (handleButtonClick (initializeButtonStates ["offer1"]) "offer1").externalCallbackCalls = 1 ∧
    getButtonState
        (runFeedbackTimer true (handleButtonClick (initializeButtonStates ["offer1"]) "offer1"))
        "offer1" = ButtonState.default :=
  ⟨by decide,
    (handleButtonClick_transient (initializeButtonStates ["offer1"]) "offer1" (by decide)).1,
    (handleButtonClick_transient (initializeButtonStates ["offer1"]) "offer1" (by decide)).2.1,
    (handleButtonClick_transient (initializeButtonStates ["offer1"]) "offer1" (by decide)).2.2.1⟩

/-- C6: in both implementations, `handleButtonMouseEnter` maps a button in
state `default` to `hover` and leaves a button in any other state unchanged;
in particular a `disabled` button stays `disabled`. -/
theorem mouseEnter_default_only
    (m : List (String × ButtonState)) (st : AppState) (k : String) (s : ButtonState)
    (hm : lookupKey m k = some s) (hc : lookupKey st.buttonStates k = some s) :
    (s = ButtonState.default →
        getButtonState (handleButtonMouseEnter m k) k = ButtonState.hover) ∧
    (s ≠ ButtonState.default → handleButtonMouseEnter m k = m) ∧
    (s = ButtonState.default →
        lookupKey (Ctx.handleButtonMouseEnter st k).buttonStates k = some ButtonState.hover) ∧
    (s ≠ ButtonState.default → Ctx.handleButtonMouseEnter st k = st) := by
  have hget : getButtonState m k = s := by simp [getButtonState, hm]
  refine ⟨?_, ?_, ?_, ?_⟩
  · intro hs
    subst hs
    simp [handleButtonMouseEnter, getButtonState, hm, setButtonState, lookupKey_setKey_self]
  · intro hs
    simp [handleButtonMouseEnter, hget, hs]
  · intro hs
    subst hs
    simp [Ctx.handleButtonMouseEnter, hc, lookupKey_setKey_self]
  · intro hs
    simp [Ctx.handleButtonMouseEnter, hc, hs]

/-- C6 witness: a disabled offer1 button is unchanged by mouse-enter in both
implementations, and a default button moves to hover in the hook. -/
theorem mouseEnter_default_only_witness :
    (lookupKey [("offer1", ButtonState.disabled)] "offer1" = some ButtonState.disabled ∧
      lookupKey (initializeButtonStates ["offer1"]) "offer1" = some ButtonState.default) ∧
    handleButtonMouseEnter [("offer1", ButtonState.disabled)] "offer1" =
      [("offer1", ButtonState.disabled)] ∧
    Ctx.handleButtonMouseEnter
        (AppState.mk [] HeaderState.active [("offer1", ButtonState.disabled)] false) "offer1" =
      AppState.mk [] HeaderState.active [("offer1", ButtonState.disabled)] false ∧
    getButtonState (handleButtonMouseEnter (initializeButtonStates ["offer1"]) "offer1")
        "offer1" = ButtonState.hover :=
  ⟨⟨by decide, by decide⟩,
    (mouseEnter_default_only [("offer1", ButtonState.disabled)]
        (AppState.mk [] HeaderState.active [("offer1", ButtonState.disabled)] false) "offer1"
        ButtonState.disabled (by decide) (by decide)).2.1 (by decide),
    (mouseEnter_default_only [("offer1", ButtonState.disabled)]
        (AppState.mk [] HeaderState.active [("offer1", ButtonState.disabled)] false) "offer1"
        ButtonState.disabled (by decide) (by decide)).2.2.2 (by decide),
    (mouseEnter_default_only (initializeButtonStates ["offer1"])
        (AppState.mk [] HeaderState.active (initializeButtonStates ["offer1"]) false) "offer1"
        ButtonState.default (by decide) (by decide)).1 rfl⟩

/-- C7: a renderer whose state-keyed bounds/style record has no entry for the
requested state produces no visual output and raises no fault, and a renderer
never reads any other state entry: its output is determined by the entry for
the current state (plus the state-independent fields). -/
theorem renderer_missing_state_renders_nothing :
    (∀ (offer : Offer) (s : OfferState) (q : ℚ),
        offer.stateBounds s = none → OfferRenderer offer s q = none) ∧
    (∀ (b : ButtonComponent) (s : ButtonState) (q : ℚ),
        b.stateStyles s = none → ButtonRenderer b s q = none) ∧
    (∀ (o1 o2 : Offer) (s : OfferState) (q : ℚ),
        o1.offerKey = o2.offerKey → o1.stateBounds s = o2.stateBounds s →
          OfferRenderer o1 s q = OfferRenderer o2 s q) ∧
    (∀ (b1 b2 : ButtonComponent) (s : ButtonState) (q : ℚ),
        b1.offerKey = b2.offerKey → b1.positionX = b2.positionX →
        b1.positionY = b2.positionY → b1.stateStyles s = b2.stateStyles s →
          ButtonRenderer b1 s q = ButtonRenderer b2 s q) := by
  refine ⟨?_, ?_, ?_, ?_⟩
  · intro offer s q h
    simp [OfferRenderer, h]
  · intro b s q h
    simp [ButtonRenderer, h]
  · intro o1 o2 s q h1 h2
    unfold OfferRenderer
    rw [h1, h2]
  · intro b1 b2 s q h1 h2 h3 h4
    unfold ButtonRenderer
    rw [h1, h2, h3, h4]

/-- C7 witness: an offer and a button with no entry for the current state
render nothing, and rendering is unchanged when only another state entry
differs. -/
theorem renderer_missing_state_witness :
    OfferRenderer ⟨"offer1", fun _ => none⟩ OfferState.Locked 1 = none ∧
    ButtonRenderer ⟨"offer1", 0, 0, fun _ => none⟩ ButtonState.default 1 = none ∧
    OfferRenderer
        ⟨"offer1", fun st =>
          if st = OfferState.Locked then some ⟨10, 20, some 100, some 50, none, none, none⟩
          else none⟩
        OfferState.Locked 2 =
      OfferRenderer
        ⟨"offer1", fun st =>
          if st = OfferState.Locked then some ⟨10, 20, some 100, some 50, none, none, none⟩
          else some ⟨1, 1, none, none, none, none, none⟩⟩
        OfferState.Locked 2 ∧
    ButtonRenderer ⟨"offer1", 0, 0, fun _ => none⟩ ButtonState.hover 1 =
      ButtonRenderer ⟨"offer1", 0, 0, fun _ => none⟩ ButtonState.hover 1 :=
  ⟨renderer_missing_state_renders_nothing.1 ⟨"offer1", fun _ => none⟩ OfferState.Locked 1 rfl,
    renderer_missing_state_renders_nothing.2.1 ⟨"offer1", 0, 0, fun _ => none⟩
      ButtonState.default 1 rfl,
    renderer_missing_state_renders_nothing.2.2.1 _ _ OfferState.Locked 2 rfl rfl,
    renderer_missing_state_renders_nothing.2.2.2 _ _ ButtonState.hover 1 rfl rfl rfl rfl⟩

/-- C8: in the context provider, cycling an offer also deterministically sets
the correlated button state under the same key: the next offer state Locked
yields disabled, Unlocked yields default, Claimed yields claimed. -/
theorem ctx_cycleOfferState_syncs_button (st : AppState) (k : String) :
    lookupKey (Ctx.cycleOfferState st k).offerStates k =
      some (cycleNextOffer ((lookupKey st.offerStates k).getD OfferState.Locked)) ∧
    lookupKey (Ctx.cycleOfferState st k).buttonStates k =
      some (match cycleNextOffer ((lookupKey st.offerStates k).getD OfferState.Locked) with
        | OfferState.Locked => ButtonState.disabled
        | OfferState.Unlocked => ButtonState.default
        | OfferState.Claimed => ButtonState.claimed) := by
  constructor
  · exact ctx_cycle_offer_lookup st k
  · cases hn : cycleNextOffer ((lookupKey st.offerStates k).getD OfferState.Locked) <;>
      simp [Ctx.cycleOfferState, hn, lookupKey_setKey_self]

/-- C9: `convertFillToCSS` maps a solid fill to its flat color value, maps a
linear gradient to a linear-gradient string built from its stops in given
order with rotation defaulting to 0 when absent, and maps the radial and
angular gradient kinds to the transparent no-op fill. -/
theorem convertFillToCSS_cases :
    (∀ (c : String) (g : Option Gradient), c ≠ "" →
        convertFillToCSS ⟨FillType.solid, some c, g⟩ = c) ∧
    (∀ (co : Option String) (stops : List GradientStop) (rot : Option ℚ),
        convertFillToCSS ⟨FillType.gradient, co, some ⟨GradientType.linear, stops, rot⟩⟩ =
          "linear-gradient(" ++ formatRatNum (rot.getD 0) ++ "deg, " ++ joinStops stops ++ ")") ∧
    (∀ (co : Option String) (gt : GradientType) (stops : List GradientStop) (rot : Option ℚ),
        gt = GradientType.radial ∨ gt = GradientType.angular →
          convertFillToCSS ⟨FillType.gradient, co, some ⟨gt, stops, rot⟩⟩ = "transparent") := by
  refine ⟨?_, ?_, ?_⟩
  · intro c g hc
    simp [convertFillToCSS, hc]
  · intro co stops rot
    rfl
  · intro co gt stops rot h
    rcases h with h | h <;> subst h <;> rfl

/-- C9 witness: a red solid fill yields its color, a two-stop linear gradient
yields its linear-gradient string, a radial gradient degrades to transparent. -/
theorem convertFillToCSS_cases_witness :
    ("#ff0000" ≠ "" ∧
      (GradientType.radial = GradientType.radial ∨
        GradientType.radial = GradientType.angular)) ∧
    convertFillToCSS ⟨FillType.solid, some "#ff0000", none⟩ = "#ff0000" ∧
    convertFillToCSS
        ⟨FillType.gradient, none,
          some ⟨GradientType.linear, [⟨"#000000", 0⟩, ⟨"#ffffff", 1⟩], none⟩⟩ =
      "linear-gradient(" ++ formatRatNum ((none : Option ℚ).getD 0) ++ "deg, " ++
        joinStops [⟨"#000000", 0⟩, ⟨"#ffffff", 1⟩] ++ ")" ∧
    convertFillToCSS ⟨FillType.gradient, none, some ⟨GradientType.radial, [], none⟩⟩ =
      "transparent" :=
  ⟨⟨by decide, Or.inl rfl⟩,
    convertFillToCSS_cases.1 "#ff0000" none (by decide),
    convertFillToCSS_cases.2.1 none [⟨"#000000", 0⟩, ⟨"#ffffff", 1⟩] none,
    convertFillToCSS_cases.2.2 none GradientType.radial [] none (Or.inl rfl)⟩

/-- C10: `handleButtonClick` in the hook sets the clicked button to `active`
unconditionally, for every current map and key (so for every current state,
including disabled and claimed); the only click protection for a disabled
button is the disabled DOM attribute the renderer emits exactly when the
current state is `disabled`. -/
theorem handleButtonClick_no_state_guard :
    (∀ (m : List (String × ButtonState)) (k : String),
        (handleButtonClick m k).buttonStates = setButtonState m k ButtonState.active ∧
        getButtonState (handleButtonClick m k).buttonStates k = ButtonState.active) ∧
    (∀ (b : ButtonComponent) (s : ButtonState) (q : ℚ),
        (ButtonRenderer b s q).map RenderedButton.disabled =
          (ButtonRenderer b s q).map fun _ => decide (s = ButtonState.disabled)) := by
  constructor
  · intro m k
    exact ⟨rfl,
      by simp [handleButtonClick, getButtonState, setButtonState, lookupKey_setKey_self]⟩
  · intro b s q
    cases h : b.stateStyles s <;> simp [ButtonRenderer, h]

end ChainOffer
